import Mathlib

/-!
Shallow embedding of the Raven device-settings dashboard (src/app.py).

Python/JSON values are modelled by the inductive `JValue`; JSON numbers are
modelled as integers (no claim depends on fractional values), dicts as
association lists in insertion order, and Python `None` as `JValue.null`.
HTTP calls are abstracted by an `HttpOutcome` describing what the transport
returned (or that the request raised); each API-client function of app.py
becomes a total Lean function of that outcome, returning the same
`(result, error)` pair the Python function returns.
-/

namespace RavenApp

/-- A JSON / Python value as handled by app.py.  `null` doubles as Python
`None`; objects keep insertion order as association lists. -/
inductive JValue where
  | null : JValue
  | bool (b : Bool) : JValue
  | num (n : Int) : JValue
  | str (s : String) : JValue
  | arr (l : List JValue) : JValue
  | obj (l : List (String × JValue)) : JValue

/-- A JSON object body: an association list in insertion order. -/
abbrev JObj := List (String × JValue)

/-- First-match association-list lookup (Python dict keys are unique, so
first match is the dict lookup). -/
def jLookup : JObj → String → Option JValue
  | [], _ => none
  | (k', v) :: t, k => if k' = k then some v else jLookup t k

/-- Python truthiness (`bool(x)`) restricted to JSON values. -/
def truthy : JValue → Bool
  | .null => false
  | .bool b => b
  | .num n => n != 0
  | .str s => s != ""
  | .arr l => !l.isEmpty
  | .obj l => !l.isEmpty

/-- Python `str(x)` / f-string rendering of a value.  Scalars are rendered
exactly as Python renders them; containers (never rendered by any claim or
by the app on its happy paths) get a fixed placeholder. -/
def pyStr : JValue → String
  | .null => "None"
  | .bool b => if b then "True" else "False"
  | .num n => toString n
  | .str s => s
  | .arr _ => "<list>"
  | .obj _ => "<dict>"

/-- Python `==` between a value and a string literal (`value == 'Make'`
etc.): true exactly when the value is that string. -/
def valIsStr (v : JValue) (s : String) : Bool :=
  match v with
  | .str t => t == s
  | _ => false

mutual

/-- Python `==` between two dynamic values, used where app.py compares two
dynamic values (`st.session_state.selected_uuid != device_map[...]`).  The
app only ever compares scalars (uuids, names, option strings); containers
compare structurally. -/
def jvEq : JValue → JValue → Bool
  | .null, .null => true
  | .bool a, .bool b => a == b
  | .num a, .num b => a == b
  | .str a, .str b => a == b
  | .arr a, .arr b => jvEqList a b
  | .obj a, .obj b => jvEqObjList a b
  | _, _ => false

/-- Structural equality of JSON arrays (elementwise `jvEq`). -/
def jvEqList : List JValue → List JValue → Bool
  | [], [] => true
  | x :: xs, y :: ys => jvEq x y && jvEqList xs ys
  | _, _ => false

/-- Structural equality of JSON objects (keys and values in order). -/
def jvEqObjList : List (String × JValue) → List (String × JValue) → Bool
  | [], [] => true
  | (k, v) :: xs, (k', v') :: ys => k == k' && jvEq v v' && jvEqObjList xs ys
  | _, _ => false

end

/-- The Python exceptions the app can raise internally. -/
inductive PyErr where
  | valueError : PyErr      -- list.index on a missing element
  | attributeError : PyErr  -- .get on a non-dict
  | typeError : PyErr       -- iterating / converting an unsuitable value
  | keyError : PyErr        -- dict subscript on a missing key
  | streamlitError : PyErr  -- widget rejects its value argument
deriving DecidableEq

/-- Rendering of an exception inside an f-string (representative text). -/
def pyErrMsg : PyErr → String
  | .valueError => "ValueError"
  | .attributeError => "AttributeError"
  | .typeError => "TypeError"
  | .keyError => "KeyError"
  | .streamlitError => "StreamlitAPIException"

/-- Exception-propagating sequencing: Python statements run in order and an
uncaught exception aborts the rest. -/
def ebind (x : Except PyErr α) (f : α → Except PyErr β) : Except PyErr β :=
  match x with
  | .error e => .error e
  | .ok a => f a

/-- `data.get(key, default)` — raises AttributeError when `data` is not a
dict, otherwise total with the given default. -/
def pyGetD (data : JValue) (k : String) (dflt : JValue) : Except PyErr JValue :=
  match data with
  | .obj kvs => .ok ((jLookup kvs k).getD dflt)
  | _ => .error .attributeError

/-- `data.get(key)` — default `None`. -/
def pyGet (data : JValue) (k : String) : Except PyErr JValue :=
  pyGetD data k .null

/-- `data[key]` — KeyError when missing, TypeError when not a dict. -/
def pySubscript (data : JValue) (k : String) : Except PyErr JValue :=
  match data with
  | .obj kvs =>
    match jLookup kvs k with
    | some v => .ok v
    | none => .error .keyError
  | _ => .error .typeError

/-- Python `float(x)` on a JSON value, with numbers modelled as integers:
numbers pass through, booleans convert, numeric strings parse, everything
else raises. -/
def pyFloat : JValue → Except PyErr JValue
  | .num n => .ok (.num n)
  | .bool b => .ok (.num (if b then 1 else 0))
  | .str s =>
    match s.trim.toInt? with
    | some n => .ok (.num n)
    | none => .error .valueError
  | _ => .error .typeError

/-- What one HTTP request produced: either the request itself raised
(timeout, connection error), or a response arrived with a status code, a
raw body text, and — when the body is valid JSON — its parsed value. -/
inductive HttpOutcome where
  | netError (msg : String) : HttpOutcome
  | response (status : Nat) (text : String) (body : Option JValue) : HttpOutcome

/-- `response.raise_for_status()` raises exactly for 4xx and 5xx codes. -/
def raiseForStatusB (status : Nat) : Bool :=
  decide (400 ≤ status ∧ status < 600)

/-- ASCII whitespace, the characters `str.strip()` removes in app.py's data. -/
def isPySpace (c : Char) : Bool :=
  c = ' ' ∨ c = '\t' ∨ c = '\n' ∨ c = '\r'

/-- Python `str.strip()` on the character list. -/
def stripChars (cs : List Char) : List Char :=
  ((cs.dropWhile isPySpace).reverse.dropWhile isPySpace).reverse

/-- Python `str.strip()`. -/
def pyStrip (s : String) : String :=
  String.mk (stripChars s.data)

/-- One pass of Python `str.replace(pat, rep)` over a character list:
left-to-right, non-overlapping, every occurrence.  `fuel` bounds the
recursion (the scan consumes at least one character per step). -/
def replaceChars (pat rep : List Char) : Nat → List Char → List Char
  | 0, cs => cs
  | _ + 1, [] => []
  | fuel + 1, c :: cs =>
    if pat.isPrefixOf (c :: cs) then
      rep ++ replaceChars pat rep fuel (List.drop pat.length (c :: cs))
    else
      c :: replaceChars pat rep fuel cs

/-- Python `str.replace(pat, rep)` for a non-empty pattern. -/
def pyReplace (s pat rep : String) : String :=
  String.mk (replaceChars pat.data rep.data s.data.length s.data)

-- ### API client (src/app.py lines 12-118)

/-- `request_token(domain, key, secret)` as a function of the HTTP outcome
of `requests.post(...)`: raise_for_status, parse JSON, and return
`(data.get('token'), None)` on the non-raising path, `(None, error)` when
anything in the try-block raised. -/
def request_token (o : HttpOutcome) : JValue × JValue :=
  match o with
  | .netError m => (.null, .str ("Token Error: " ++ m))
  | .response status _ body =>
    if raiseForStatusB status then
      (.null, .str ("Token Error: HTTPError " ++ toString status))
    else
      match body with
      | none => (.null, .str "Token Error: JSONDecodeError")
      | some j =>
        match j with
        | .obj kvs => ((jLookup kvs "token").getD .null, .null)
        | _ => (.null, .str "Token Error: AttributeError")

/-- `get_settings(domain, token, uuid)`: returns `(response.json(), None)`
on the non-raising path (note a JSON `null` body yields Python `None` in
the result slot), `(None, error)` otherwise. -/
def get_settings (o : HttpOutcome) : JValue × JValue :=
  match o with
  | .netError m => (.null, .str ("Get Settings Error: " ++ m))
  | .response status _ body =>
    if raiseForStatusB status then
      (.null, .str ("Get Settings Error: HTTPError " ++ toString status))
    else
      match body with
      | none => (.null, .str "Get Settings Error: JSONDecodeError")
      | some j => (j, .null)

/-- `update_settings(domain, token, uuid, payload)`: the response body is
never parsed; the error message appends `response.text` when a response
exists (and the empty string when the request itself raised). -/
def update_settings (o : HttpOutcome) : JValue × JValue :=
  match o with
  | .netError m =>
    (.null, .str ("Update Error: " ++ m ++ "\nResponse Body: "))
  | .response status text _ =>
    if raiseForStatusB status then
      (.null, .str ("Update Error: HTTPError " ++ toString status ++ "\nResponse Body: " ++ text))
    else
      (.str "Settings updated successfully!", .null)

/-- `send_message(domain, token, uuid, message, duration)`; the message and
duration only shape the request, which the outcome abstracts. -/
def send_message (o : HttpOutcome) (_message : String) (_duration : Int) : JValue × JValue :=
  match o with
  | .netError m => (.null, .str ("Send Message Error: " ++ m))
  | .response status _ _ =>
    if raiseForStatusB status then
      (.null, .str ("Send Message Error: HTTPError " ++ toString status))
    else
      (.str "Message sent successfully!", .null)

/-- `clear_message(domain, token, uuid)`. -/
def clear_message (o : HttpOutcome) : JValue × JValue :=
  match o with
  | .netError m => (.null, .str ("Clear Message Error: " ++ m))
  | .response status _ _ =>
    if raiseForStatusB status then
      (.null, .str ("Clear Message Error: HTTPError " ++ toString status))
    else
      (.str "Clear message request sent successfully!", .null)

-- ### list_devices (src/app.py lines 25-70)

/-- The VIN-decode URL built by the f-string in `list_devices`. -/
def nhtsaUrl (vin : JValue) : String :=
  "https://vpic.nhtsa.dot.gov/api/vehicles/DecodeVin/" ++ pyStr vin ++ "?format=json"

/-- The `for result in nhtsa_results` loop: each row that is a dict updates
make/model/year from `result.get('Value', 'N/A')` when its `Variable`
matches; a non-dict row raises, keeping the assignments made so far (the
state travels in the error). -/
def decodeRows : List JValue → JValue × JValue × JValue →
    Except ((JValue × JValue × JValue) × PyErr) (JValue × JValue × JValue)
  | [], st => .ok st
  | row :: rest, (mk, md, yr) =>
    match pyGet row "Variable" with
    | .error e => .error ((mk, md, yr), e)
    | .ok var =>
      let valOf := match pyGetD row "Value" (.str "N/A") with
        | .ok v => v
        | .error _ => .null
      if valIsStr var "Make" then decodeRows rest (valOf, md, yr)
      else if valIsStr var "Model" then decodeRows rest (mk, valOf, yr)
      else if valIsStr var "Model Year" then decodeRows rest (mk, md, valOf)
      else decodeRows rest (mk, md, yr)

/-- The whole inner try-block of the VIN lookup: request, raise_for_status,
JSON parse, `.get('Results', [])`, and the decode loop.  Returns the final
make/model/year together with the warning text when anything raised. -/
def vinLookup (nhtsa : String → HttpOutcome) (vin : JValue) :
    (JValue × JValue × JValue) × Option String :=
  let start : JValue × JValue × JValue := (.str "N/A", .str "N/A", .str "N/A")
  let warn (err : String) := "⚠️ Could not look up VIN " ++ pyStr vin ++ ": " ++ err
  match nhtsa (nhtsaUrl vin) with
  | .netError m => (start, some (warn m))
  | .response status _ body =>
    if raiseForStatusB status then (start, some (warn ("HTTPError " ++ toString status)))
    else
      match body with
      | none => (start, some (warn "JSONDecodeError"))
      | some j =>
        match pyGetD j "Results" (.arr []) with
        | .error e => (start, some (warn (pyErrMsg e)))
        | .ok results =>
          match results with
          | .arr rows =>
            match decodeRows rows start with
            | .ok st => (st, none)
            | .error (st, e) => (st, some (warn (pyErrMsg e)))
          | _ => (start, some (warn (pyErrMsg .typeError)))

/-- `f"{vehicle_year} {vehicle_make} {vehicle_model}".strip().replace("N/A", "").strip()`
followed by the serial-number fallback when the result is empty. -/
def mkVehicleName (make model year sn : JValue) : String :=
  let joined := pyStr year ++ " " ++ pyStr make ++ " " ++ pyStr model
  let cleaned := pyStrip (pyReplace (pyStrip joined) "N/A" "")
  if cleaned = "" then "Vehicle SN: " ++ pyStr sn else cleaned

/-- One iteration of the device loop in `list_devices`: read uuid, serial
and vin from the device dict (these `.get` calls can raise and abort the
whole listing), do the best-effort VIN lookup when the vin is truthy, and
produce the option entry plus this device's status messages (warning, if
any, then the Found line). -/
def processDevice (nhtsa : String → HttpOutcome) (device : JValue) :
    Except PyErr (JValue × List String) :=
  ebind (pyGetD device "uuid" (.str "N/A")) fun uuid =>
  ebind (pyGetD device "enclosure_serial_no" (.str "N/A")) fun sn =>
  ebind (pyGetD device "vin" (.str "")) fun vin =>
  let looked :=
    if truthy vin then vinLookup nhtsa vin
    else ((.str "N/A", .str "N/A", .str "N/A"), none)
  let (st, warning) := looked
  let (vehicle_make, vehicle_model, vehicle_year) := st
  let vehicle_name := mkVehicleName vehicle_make vehicle_model vehicle_year sn
  let entry : JValue := .obj [("name", .str vehicle_name), ("uuid", uuid)]
  let found := "Found: " ++ vehicle_name ++ " (UUID: " ++ pyStr uuid ++ ")"
  let msgs := match warning with
    | some w => [w, found]
    | none => [found]
  .ok (entry, msgs)

/-- The device loop: entries and status messages accumulate in order; an
exception from a device dict aborts the whole loop (caught by the outer
handler of `list_devices`). -/
def processDevices (nhtsa : String → HttpOutcome) :
    List JValue → Except PyErr (List JValue × List String)
  | [] => .ok ([], [])
  | d :: rest =>
    ebind (processDevice nhtsa d) fun em =>
    ebind (processDevices nhtsa rest) fun ems =>
    .ok (em.1 :: ems.1, em.2 ++ ems.2)

/-- `list_devices(domain, token)` as a function of the listing outcome and
of a per-URL oracle for the NHTSA lookups.  On success the second
component is the joined status messages (a string, not `None`). -/
def list_devices (o : HttpOutcome) (nhtsa : String → HttpOutcome) : JValue × JValue :=
  match o with
  | .netError m => (.null, .str ("An error occurred while listing devices: " ++ m))
  | .response status _ body =>
    if raiseForStatusB status then
      (.null, .str ("An error occurred while listing devices: HTTPError " ++ toString status))
    else
      match body with
      | none => (.null, .str "An error occurred while listing devices: JSONDecodeError")
      | some j =>
        match pyGetD j "results" (.arr []) with
        | .error e => (.null, .str ("An error occurred while listing devices: " ++ pyErrMsg e))
        | .ok devices_data =>
          match devices_data with
          | .arr devs =>
            match processDevices nhtsa devs with
            | .ok (opts, msgs) => (.arr opts, .str (String.intercalate "\n" msgs))
            | .error e =>
              (.null, .str ("An error occurred while listing devices: " ++ pyErrMsg e))
          | _ => (.null, .str "API response did not return a list of devices.")

-- ### Settings form widgets (Streamlit semantics of the calls in lines 259-430)

/-- A user edit recorded against one widget: a checkbox state, a numeric
entry, a text entry, or a selectbox choice. -/
inductive UiVal where
  | b (x : Bool) : UiVal
  | n (x : Int) : UiVal
  | t (x : String) : UiVal
  | choice (x : String) : UiVal

/-- The user's edits for one render cycle, keyed by the widget's Streamlit
key when the call provides one and by its label otherwise. -/
def Edits := String → Option UiVal

/-- No user interaction: every widget returns its derived default. -/
def noEdits : Edits := fun _ => none

/-- `st.checkbox(label, value)`: the value argument is cast with `bool`,
and the widget returns the user's state, defaulting to that cast. -/
def checkbox (ed : Edits) (id : String) (v : JValue) : Bool :=
  match ed id with
  | some (.b x) => x
  | _ => truthy v

/-- `st.number_input(label, value=v)`: numbers (and bools, which Python
treats as ints) are accepted, `None` initializes empty and returns `None`
until the user types, and any other value raises. -/
def number_input (ed : Edits) (id : String) (v : JValue) : Except PyErr JValue :=
  match v with
  | .num x =>
    .ok (match ed id with | some (.n y) => .num y | _ => .num x)
  | .bool x =>
    .ok (match ed id with | some (.n y) => .num y | _ => .num (if x then 1 else 0))
  | .null =>
    .ok (match ed id with | some (.n y) => .num y | _ => .null)
  | _ => .error .streamlitError

/-- `st.selectbox(label, options, index=i)`: returns the user's choice
when it is one of the options and `options[i]` otherwise (`i` is in range
by construction, coming from a successful `list.index`). -/
def selectbox (ed : Edits) (id : String) (options : List String) (i : Nat) : String :=
  match ed id with
  | some (.choice s) => if s ∈ options then s else options.getD i ""
  | _ => options.getD i ""

/-- `st.text_input(label, value)`: `None` initializes empty and returns
`None` until the user types; any other value is cast to str. -/
def text_input (ed : Edits) (id : String) (v : JValue) : JValue :=
  match ed id with
  | some (.t s) => .str s
  | _ =>
    match v with
    | .null => .null
    | w => .str (pyStr w)

/-- `options.index(value)`: the position of the value in the list, raising
ValueError when the value is not an option. -/
def listIndex (options : List String) (v : JValue) : Except PyErr Nat :=
  match List.findIdx? (fun o => valIsStr v o) options with
  | some i => .ok i
  | none => .error .valueError

-- ### Per-field patterns of the payload assembly

/-- `st.checkbox(label, data.get(key))` — the boolean-field pattern. -/
def cbGet (ed : Edits) (id : String) (data : JValue) (key : String) : Except PyErr Bool :=
  ebind (pyGet data key) fun v => .ok (checkbox ed id v)

/-- `st.number_input(label, value=data.get(key, dflt))` — the numeric
pattern. -/
def numGet (ed : Edits) (id : String) (data : JValue) (key : String) (dflt : JValue) :
    Except PyErr JValue :=
  ebind (pyGetD data key dflt) fun v => number_input ed id v

/-- `st.number_input(label, value=float(data.get(key, dflt)))` — the
tailgating float pattern. -/
def numGetF (ed : Edits) (id : String) (data : JValue) (key : String) (dflt : JValue) :
    Except PyErr JValue :=
  ebind (pyGetD data key dflt) fun v =>
  ebind (pyFloat v) fun w => number_input ed id w

/-- `st.selectbox(label, options, index=options.index(data.get(key, dflt)))`
— the enum pattern; the index lookup raises on an out-of-set value. -/
def selGet (ed : Edits) (id : String) (options : List String) (data : JValue)
    (key : String) (dflt : String) : Except PyErr String :=
  ebind (pyGetD data key (.str dflt)) fun v =>
  ebind (listIndex options v) fun i => .ok (selectbox ed id options i)

/-- `st.text_input(label, data.get(key))` — the string pattern. -/
def txtGet (ed : Edits) (id : String) (data : JValue) (key : String) : Except PyErr JValue :=
  ebind (pyGet data key) fun v => .ok (text_input ed id v)

-- ### Section builders (src/app.py lines 259-430), in tab execution order

/-- `update_payload["audio"]` (lines 259-266). -/
def buildAudio (ed : Edits) (s : JValue) : Except PyErr JObj :=
  ebind (pyGetD s "audio" (.obj [])) fun audio_data =>
  ebind (cbGet ed "General Audio Notifications" audio_data "audio_notifications_enabled") fun v1 =>
  ebind (cbGet ed "Enable Audio in Live Stream" audio_data "streaming_audio_enabled") fun v2 =>
  ebind (cbGet ed "Message Notification Sound" audio_data "message_notification_audio_enabled") fun v3 =>
  .ok [("audio_notifications_enabled", .bool v1),
       ("streaming_audio_enabled", .bool v2),
       ("message_notification_audio_enabled", .bool v3)]

/-- The fixed video-profile option list (line 285). -/
def vid_profile_options : List String := ["standard", "legacy", "balanced", "extended"]

/-- `update_payload["camera"]` (lines 268-292). -/
def buildCamera (ed : Edits) (s : JValue) : Except PyErr JObj :=
  ebind (pyGetD s "camera" (.obj [])) fun cam_data =>
  ebind (pyGetD cam_data "road_camera" (.obj [])) fun road_cam_data =>
  ebind (pyGetD cam_data "cabin_camera" (.obj [])) fun cabin_cam_data =>
  ebind (cbGet ed "rc_en" road_cam_data "camera_enabled") fun road_en =>
  ebind (cbGet ed "rc_aud" road_cam_data "audio_recording") fun road_aud =>
  ebind (cbGet ed "cc_en" cabin_cam_data "camera_enabled") fun cabin_en =>
  ebind (cbGet ed "cc_aud" cabin_cam_data "audio_recording") fun cabin_aud =>
  ebind (selGet ed "Video Profile" vid_profile_options cam_data
          "video_recording_profile" "standard") fun vid_profile =>
  .ok [("road_camera", .obj [("camera_enabled", .bool road_en),
                             ("audio_recording", .bool road_aud)]),
       ("cabin_camera", .obj [("camera_enabled", .bool cabin_en),
                              ("audio_recording", .bool cabin_aud)]),
       ("video_recording_profile", .str vid_profile)]

/-- The `dms_row(label, base_key, data)` helper (lines 337-346). -/
def dms_row (ed : Edits) (base : String) (data : JValue) : Except PyErr JObj :=
  ebind (cbGet ed (base ++ "_en") data (base ++ "_event_enabled")) fun en =>
  ebind (cbGet ed (base ++ "_vis") data (base ++ "_visual_alert_enabled")) fun vis =>
  ebind (numGet ed (base ++ "_grace") data (base ++ "_grace_period") (.num 0)) fun grace =>
  ebind (numGet ed (base ++ "_speed") data (base ++ "_speed_threshold") (.num 0)) fun speed =>
  .ok [(base ++ "_event_enabled", .bool en),
       (base ++ "_visual_alert_enabled", .bool vis),
       (base ++ "_grace_period", grace),
       (base ++ "_speed_threshold", speed)]

/-- `update_payload["events"]` (lines 294-385): every `events_payload`
assignment in source order, with the DMS rows and ADAS/security fields. -/
def buildEvents (ed : Edits) (s : JValue) : Except PyErr JObj :=
  ebind (pyGetD s "events" (.obj [])) fun events_data =>
  ebind (cbGet ed "Harsh Braking" events_data "harsh_braking_event_enabled") fun hb_en =>
  ebind (numGet ed "hb_thresh" events_data "harsh_braking_accel_threshold" (.num 0)) fun hb_th =>
  ebind (cbGet ed "Aggressive Accel" events_data "aggressive_accel_event_enabled") fun aa_en =>
  ebind (numGet ed "aa_thresh" events_data "aggressive_accel_threshold" (.num 0)) fun aa_th =>
  ebind (cbGet ed "Harsh Cornering" events_data "harsh_cornering_event_enabled") fun hc_en =>
  ebind (numGet ed "hc_thresh" events_data "harsh_cornering_accel_threshold" (.num 0)) fun hc_th =>
  ebind (cbGet ed "Possible Impact" events_data "possible_impact_event_enabled") fun pi_en =>
  ebind (numGet ed "pi_thresh" events_data "possible_impact_accel_threshold" (.num 0)) fun pi_th =>
  ebind (cbGet ed "Car Bumped (when parked)" events_data "car_bumped_event_enabled") fun cb_en =>
  ebind (numGet ed "cb_thresh" events_data "car_bumped_accel_threshold" (.num 0)) fun cb_th =>
  ebind (cbGet ed "Idling" events_data "idling_event_enabled") fun idl_en =>
  ebind (numGet ed "Idling Grace Period (ms)" events_data "idling_event_grace_period" (.num 0)) fun idl_gr =>
  ebind (numGet ed "Idling Speed Floor (km/h)" events_data "idling_event_speed_floor" (.num 0)) fun idl_sf =>
  ebind (cbGet ed "Speeding Event Enabled" events_data "speeding_event_enabled") fun sp_en =>
  ebind (numGet ed "Speeding Threshold" events_data "speeding_event_threshold" (.num 0)) fun sp_th =>
  ebind (selGet ed "se_type" ["CONSTANT", "PERCENT"] events_data
          "speeding_event_threshold_type" "CONSTANT") fun sp_ty =>
  ebind (numGet ed "Visual Warning Threshold" events_data "speeding_visual_warning_threshold" (.num 0)) fun svw_th =>
  ebind (selGet ed "svw_type" ["CONSTANT", "PERCENT"] events_data
          "speeding_visual_warning_threshold_type" "CONSTANT") fun svw_ty =>
  ebind (cbGet ed "Auto Upload Event Video" events_data "auto_video_upload_enabled") fun avu =>
  ebind (cbGet ed "Bad Install Detection" events_data "bad_install_event_enabled") fun bad =>
  ebind (dms_row ed "cellphone_detection" events_data) fun dms1 =>
  ebind (dms_row ed "camera_obscured" events_data) fun dms2 =>
  ebind (dms_row ed "distracted_detection" events_data) fun dms3 =>
  ebind (dms_row ed "drinking_detection" events_data) fun dms4 =>
  ebind (dms_row ed "eating_detection" events_data) fun dms5 =>
  ebind (dms_row ed "smoking_detection" events_data) fun dms6 =>
  ebind (dms_row ed "tired_detection" events_data) fun dms7 =>
  ebind (cbGet ed "tg_en" events_data "tailgating_detection_event_enabled") fun tg_en =>
  ebind (cbGet ed "tg_vis" events_data "tailgating_detection_visual_alert_enabled") fun tg_vis =>
  ebind (numGet ed "Speed Threshold (km/h)" events_data "tailgating_detection_speed_threshold" (.num 0)) fun tg_sp =>
  ebind (numGet ed "Grace Period (s)" events_data "tailgating_detection_grace_period" (.num 0)) fun tg_gr =>
  ebind (numGetF ed "Follow Time (s)" events_data "tailgating_detection_follow_time" (.num 0)) fun tg_fo =>
  ebind (numGetF ed "Critical Reaction Time (s)" events_data "tailgating_detection_critical_reaction_time" (.num 0)) fun tg_cr =>
  ebind (numGetF ed "Alert Reaction Time (s)" events_data "tailgating_detection_alert_reaction_time" (.num 0)) fun tg_al =>
  ebind (numGetF ed "Safe Reaction Time (s)" events_data "tailgating_detection_safe_reaction_time" (.num 0)) fun tg_sa =>
  ebind (cbGet ed "vp_en" events_data "vanishing_point_calibration_enabled") fun vp_en =>
  ebind (cbGet ed "vp_force" events_data "vanishing_point_calibration_force") fun vp_fo =>
  ebind (numGet ed "Preview Image Count" events_data "security_event_preview_count" (.num 0)) fun sec_pc =>
  ebind (numGet ed "Preview Duration (s)" events_data "security_event_preview_duration" (.num 0)) fun sec_pd =>
  ebind (numGet ed "Video Duration (s)" events_data "security_event_video_duration" (.num 0)) fun sec_vd =>
  .ok ([("harsh_braking_event_enabled", .bool hb_en),
        ("harsh_braking_accel_threshold", hb_th),
        ("aggressive_accel_event_enabled", .bool aa_en),
        ("aggressive_accel_threshold", aa_th),
        ("harsh_cornering_event_enabled", .bool hc_en),
        ("harsh_cornering_accel_threshold", hc_th),
        ("possible_impact_event_enabled", .bool pi_en),
        ("possible_impact_accel_threshold", pi_th),
        ("car_bumped_event_enabled", .bool cb_en),
        ("car_bumped_accel_threshold", cb_th),
        ("idling_event_enabled", .bool idl_en),
        ("idling_event_grace_period", idl_gr),
        ("idling_event_speed_floor", idl_sf),
        ("speeding_event_enabled", .bool sp_en),
        ("speeding_event_threshold", sp_th),
        ("speeding_event_threshold_type", .str sp_ty),
        ("speeding_visual_warning_threshold", svw_th),
        ("speeding_visual_warning_threshold_type", .str svw_ty),
        ("auto_video_upload_enabled", .bool avu),
        ("bad_install_event_enabled", .bool bad)]
       ++ dms1 ++ dms2 ++ dms3 ++ dms4 ++ dms5 ++ dms6 ++ dms7 ++
       [("tailgating_detection_event_enabled", .bool tg_en),
        ("tailgating_detection_visual_alert_enabled", .bool tg_vis),
        ("tailgating_detection_speed_threshold", tg_sp),
        ("tailgating_detection_grace_period", tg_gr),
        ("tailgating_detection_follow_time", tg_fo),
        ("tailgating_detection_critical_reaction_time", tg_cr),
        ("tailgating_detection_alert_reaction_time", tg_al),
        ("tailgating_detection_safe_reaction_time", tg_sa),
        ("vanishing_point_calibration_enabled", .bool vp_en),
        ("vanishing_point_calibration_force", .bool vp_fo),
        ("security_event_preview_count", sec_pc),
        ("security_event_preview_duration", sec_pd),
        ("security_event_video_duration", sec_vd)])

/-- `update_payload["obd"]` (lines 387-393). -/
def buildObd (ed : Edits) (s : JValue) : Except PyErr JObj :=
  ebind (pyGetD s "obd" (.obj [])) fun obd_data =>
  ebind (cbGet ed "CANbus Enabled" obd_data "canbus_enabled") fun can =>
  ebind (numGet ed "Low Battery Cutoff (mV)" obd_data "low_battery_cutoff_millivolts" (.num 0)) fun lb =>
  .ok [("canbus_enabled", .bool can),
       ("low_battery_cutoff_millivolts", lb)]

/-- `update_payload["wifi_hotspot"]` (lines 395-403). -/
def buildWifi (ed : Edits) (s : JValue) : Except PyErr JObj :=
  ebind (pyGetD s "wifi_hotspot" (.obj [])) fun wifi_data =>
  ebind (cbGet ed "Hotspot Enabled" wifi_data "hotspot_enabled") fun hot =>
  ebind (cbGet ed "Auto-Disable on Engine Off" wifi_data "auto_disable_on_engine_off") fun auto =>
  ebind (txtGet ed "SSID" wifi_data "ssid") fun ssid =>
  ebind (txtGet ed "Password" wifi_data "password") fun pw =>
  .ok [("hotspot_enabled", .bool hot),
       ("auto_disable_on_engine_off", .bool auto),
       ("ssid", ssid),
       ("password", pw)]

/-- `update_payload["driver_id"]` (lines 405-412). -/
def buildDriverId (ed : Edits) (s : JValue) : Except PyErr JObj :=
  ebind (pyGetD s "driver_id" (.obj [])) fun did_data =>
  ebind (cbGet ed "Barcode ID Enabled" did_data "barcode_driver_id_enabled") fun en =>
  ebind (selGet ed "Request Period" ["PER_TRIP", "ALWAYS"] did_data
          "barcode_driver_id_request_period" "PER_TRIP") fun period =>
  ebind (numGet ed "Audio Delay (s)" did_data "barcode_driver_id_audio_delay" (.num 0)) fun delay =>
  .ok [("barcode_driver_id_enabled", .bool en),
       ("barcode_driver_id_request_period", .str period),
       ("barcode_driver_id_audio_delay", delay)]

/-- `update_payload["system"]` (lines 414-421). -/
def buildSystem (ed : Edits) (s : JValue) : Except PyErr JObj :=
  ebind (pyGetD s "system" (.obj [])) fun sys_data =>
  ebind (cbGet ed "Gesture Enabled" sys_data "gesture_enabled") fun ges =>
  ebind (numGet ed "Video Rec After Parked (s)" sys_data "video_recording_after_parked_duration" (.num 0)) fun vr =>
  ebind (numGet ed "Speed Adjustment (%)" sys_data "vehicle_speed_adjustment_percent" (.num 0)) fun sa =>
  .ok [("gesture_enabled", .bool ges),
       ("video_recording_after_parked_duration", vr),
       ("vehicle_speed_adjustment_percent", sa)]

/-- `update_payload["eld"]` (lines 423-430). -/
def buildEld (ed : Edits) (s : JValue) : Except PyErr JObj :=
  ebind (pyGetD s "eld" (.obj [])) fun eld_data =>
  ebind (cbGet ed "ELD Enabled" eld_data "eld_enabled") fun en =>
  ebind (cbGet ed "Visual Unidentified Driving Alert" eld_data "eld_visual_ud_alert_enabled") fun vis =>
  ebind (numGet ed "Alert Period (ms)" eld_data "eld_visual_ud_alert_period" (.num 0)) fun per =>
  .ok [("eld_enabled", .bool en),
       ("eld_visual_ud_alert_enabled", .bool vis),
       ("eld_visual_ud_alert_period", per)]

/-- The whole `update_payload` built from the fetched settings document `s`
for one render cycle: the tabs run in order and each managed section is
assigned unconditionally (lines 238-430). -/
def buildPayload (ed : Edits) (s : JValue) : Except PyErr JObj :=
  ebind (buildAudio ed s) fun audio =>
  ebind (buildCamera ed s) fun camera =>
  ebind (buildEvents ed s) fun events =>
  ebind (buildObd ed s) fun obd =>
  ebind (buildWifi ed s) fun wifi =>
  ebind (buildDriverId ed s) fun did =>
  ebind (buildSystem ed s) fun sys =>
  ebind (buildEld ed s) fun eld =>
  .ok [("audio", .obj audio),
       ("camera", .obj camera),
       ("events", .obj events),
       ("obd", .obj obd),
       ("wifi_hotspot", .obj wifi),
       ("driver_id", .obj did),
       ("system", .obj sys),
       ("eld", .obj eld)]

-- ### Session state (src/app.py lines 126-135, 190-213, 434-443)

/-- The Streamlit session state the app initializes: every field starts as
Python `None` except the device list and the status message. -/
structure Session where
  access_token : JValue
  devices : JValue
  selected_uuid : JValue
  current_settings : JValue
  status_message : JValue

/-- The freshly initialized session (lines 126-135). -/
def initialSession : Session :=
  { access_token := .null
  , devices := .arr []
  , selected_uuid := .null
  , current_settings := .null
  , status_message := .str "" }

/-- Python dict insertion with overwrite, for the
`{d['name']: d['uuid'] for d in devices}` comprehension. -/
def dictInsert (m : List (JValue × JValue)) (k v : JValue) : List (JValue × JValue) :=
  if m.any (fun p => jvEq p.1 k) then
    m.map (fun p => if jvEq p.1 k then (p.1, v) else p)
  else
    m ++ [(k, v)]

/-- `device_map = {d['name']: d['uuid'] for d in st.session_state.devices}`
(line 191): subscript errors propagate, a non-list raises TypeError. -/
def deviceMapBuild (devices : JValue) : Except PyErr (List (JValue × JValue)) :=
  match devices with
  | .arr l =>
    l.foldlM (fun m d =>
      ebind (pySubscript d "name") fun name =>
      ebind (pySubscript d "uuid") fun uuid =>
      .ok (dictInsert m name uuid)) []
  | _ => .error .typeError

/-- `device_map[selected_name]` (lines 208-209). -/
def deviceMapGet (m : List (JValue × JValue)) (k : JValue) : Except PyErr JValue :=
  match m.find? (fun p => jvEq p.1 k) with
  | some p => .ok p.2
  | none => .error .keyError

/-- Lines 190-211: resolving the selectbox choice against the device map
and, when the chosen uuid differs from the stored one, storing the new
uuid and clearing the held settings document before the rerun. -/
def selectDeviceStep (st : Session) (selected_name : JValue) : Except PyErr Session :=
  ebind (deviceMapBuild st.devices) fun dmap =>
  ebind (deviceMapGet dmap selected_name) fun uuid =>
  .ok (if jvEq st.selected_uuid uuid then st
       else { st with selected_uuid := uuid, current_settings := .null })

/-- Lines 434-443: the save button.  On a truthy success message the held
settings are replaced by the first component of a follow-up `get_settings`
call (its error is discarded) and the app reruns; otherwise the session is
unchanged (the error is only displayed). -/
def saveSettingsFlow (st : Session) (updOutcome refreshOutcome : HttpOutcome) : Session :=
  let r := update_settings updOutcome
  if truthy r.1 then
    { st with current_settings := (get_settings refreshOutcome).1 }
  else
    st

-- ### Derived key lists and observation helpers for the theorems

/-- The managed top-level sections, in payload insertion order. -/
def managedSections : List String :=
  ["audio", "camera", "events", "obd", "wifi_hotspot", "driver_id", "system", "eld"]

/-- The keys `buildAudio` emits. -/
def audioKeys : List String :=
  ["audio_notifications_enabled", "streaming_audio_enabled",
   "message_notification_audio_enabled"]

/-- The keys `buildCamera` emits. -/
def cameraKeys : List String :=
  ["road_camera", "cabin_camera", "video_recording_profile"]

/-- The keys one DMS row emits. -/
def dmsKeys (base : String) : List String :=
  [base ++ "_event_enabled", base ++ "_visual_alert_enabled",
   base ++ "_grace_period", base ++ "_speed_threshold"]

/-- The keys `buildEvents` emits, in insertion order. -/
def eventsKeys : List String :=
  ["harsh_braking_event_enabled", "harsh_braking_accel_threshold",
   "aggressive_accel_event_enabled", "aggressive_accel_threshold",
   "harsh_cornering_event_enabled", "harsh_cornering_accel_threshold",
   "possible_impact_event_enabled", "possible_impact_accel_threshold",
   "car_bumped_event_enabled", "car_bumped_accel_threshold",
   "idling_event_enabled", "idling_event_grace_period", "idling_event_speed_floor",
   "speeding_event_enabled", "speeding_event_threshold", "speeding_event_threshold_type",
   "speeding_visual_warning_threshold", "speeding_visual_warning_threshold_type",
   "auto_video_upload_enabled", "bad_install_event_enabled"]
  ++ dmsKeys "cellphone_detection" ++ dmsKeys "camera_obscured"
  ++ dmsKeys "distracted_detection" ++ dmsKeys "drinking_detection"
  ++ dmsKeys "eating_detection" ++ dmsKeys "smoking_detection"
  ++ dmsKeys "tired_detection"
  ++ ["tailgating_detection_event_enabled", "tailgating_detection_visual_alert_enabled",
      "tailgating_detection_speed_threshold", "tailgating_detection_grace_period",
      "tailgating_detection_follow_time", "tailgating_detection_critical_reaction_time",
      "tailgating_detection_alert_reaction_time", "tailgating_detection_safe_reaction_time",
      "vanishing_point_calibration_enabled", "vanishing_point_calibration_force",
      "security_event_preview_count", "security_event_preview_duration",
      "security_event_video_duration"]

/-- The keys `buildObd` emits. -/
def obdKeys : List String := ["canbus_enabled", "low_battery_cutoff_millivolts"]

/-- The keys `buildWifi` emits. -/
def wifiKeys : List String :=
  ["hotspot_enabled", "auto_disable_on_engine_off", "ssid", "password"]

/-- The keys `buildDriverId` emits. -/
def driverIdKeys : List String :=
  ["barcode_driver_id_enabled", "barcode_driver_id_request_period",
   "barcode_driver_id_audio_delay"]

/-- The keys `buildSystem` emits. -/
def systemKeys : List String :=
  ["gesture_enabled", "video_recording_after_parked_duration",
   "vehicle_speed_adjustment_percent"]

/-- The keys `buildEld` emits. -/
def eldKeys : List String :=
  ["eld_enabled", "eld_visual_ud_alert_enabled", "eld_visual_ud_alert_period"]

/-- The section object an assembled payload holds for a section name. -/
def okSec (r : Except PyErr JObj) (sec : String) : Option JValue :=
  match r with
  | .ok o => jLookup o sec
  | .error _ => none

/-- The top-level section names of an assembled payload. -/
def okSections (r : Except PyErr JObj) : Option (List String) :=
  match r with
  | .ok o => some (o.map Prod.fst)
  | .error _ => none

/-- The key list of one section of an assembled payload. -/
def okSecKeys (r : Except PyErr JObj) (sec : String) : Option (List String) :=
  match okSec r sec with
  | some (.obj so) => some (so.map Prod.fst)
  | _ => none

/-- One field value inside one section of an assembled payload. -/
def okField (r : Except PyErr JObj) (sec k : String) : Option JValue :=
  match okSec r sec with
  | some (.obj so) => jLookup so k
  | _ => none

/-- Exactly one of the two components of a `(result, error)` pair is
non-null. -/
def exactlyOne (r : JValue × JValue) : Prop :=
  (r.1 ≠ .null ∧ r.2 = .null) ∨ (r.1 = .null ∧ r.2 ≠ .null)

/-- At most one of the two components is non-null. -/
def atMostOne (r : JValue × JValue) : Prop :=
  r.1 = .null ∨ r.2 = .null

/-- The try-block of `request_token` runs to its return statement: a
response arrived, its status is outside 400-599, and its body parsed to a
JSON object. -/
def tokenTryOk : HttpOutcome → Bool
  | .response status _ (some (.obj _)) => !raiseForStatusB status
  | _ => false

/-- The `token` field of the response's object body (`None` when absent,
as Python's `dict.get`). -/
def tokenFieldVal : HttpOutcome → JValue
  | .response _ _ (some (.obj kvs)) => (jLookup kvs "token").getD .null
  | _ => .null

/-- What one DMS row derives when every key is absent. -/
def dmsDefaults (base : String) : JObj :=
  [(base ++ "_event_enabled", .bool false),
   (base ++ "_visual_alert_enabled", .bool false),
   (base ++ "_grace_period", .num 0),
   (base ++ "_speed_threshold", .num 0)]

/-- The payload assembled from a document with every managed key absent:
booleans derive `false`, numerics `0`, enums the first option, and the two
text fields derive `null` (Python `None`), not the empty string. -/
def defaultPayload : JObj :=
  [("audio", .obj
     [("audio_notifications_enabled", .bool false),
      ("streaming_audio_enabled", .bool false),
      ("message_notification_audio_enabled", .bool false)]),
   ("camera", .obj
     [("road_camera", .obj [("camera_enabled", .bool false),
                            ("audio_recording", .bool false)]),
      ("cabin_camera", .obj [("camera_enabled", .bool false),
                             ("audio_recording", .bool false)]),
      ("video_recording_profile", .str "standard")]),
   ("events", .obj
     ([("harsh_braking_event_enabled", .bool false),
       ("harsh_braking_accel_threshold", .num 0),
       ("aggressive_accel_event_enabled", .bool false),
       ("aggressive_accel_threshold", .num 0),
       ("harsh_cornering_event_enabled", .bool false),
       ("harsh_cornering_accel_threshold", .num 0),
       ("possible_impact_event_enabled", .bool false),
       ("possible_impact_accel_threshold", .num 0),
       ("car_bumped_event_enabled", .bool false),
       ("car_bumped_accel_threshold", .num 0),
       ("idling_event_enabled", .bool false),
       ("idling_event_grace_period", .num 0),
       ("idling_event_speed_floor", .num 0),
       ("speeding_event_enabled", .bool false),
       ("speeding_event_threshold", .num 0),
       ("speeding_event_threshold_type", .str "CONSTANT"),
       ("speeding_visual_warning_threshold", .num 0),
       ("speeding_visual_warning_threshold_type", .str "CONSTANT"),
       ("auto_video_upload_enabled", .bool false),
       ("bad_install_event_enabled", .bool false)]
      ++ dmsDefaults "cellphone_detection" ++ dmsDefaults "camera_obscured"
      ++ dmsDefaults "distracted_detection" ++ dmsDefaults "drinking_detection"
      ++ dmsDefaults "eating_detection" ++ dmsDefaults "smoking_detection"
      ++ dmsDefaults "tired_detection"
      ++ [("tailgating_detection_event_enabled", .bool false),
          ("tailgating_detection_visual_alert_enabled", .bool false),
          ("tailgating_detection_speed_threshold", .num 0),
          ("tailgating_detection_grace_period", .num 0),
          ("tailgating_detection_follow_time", .num 0),
          ("tailgating_detection_critical_reaction_time", .num 0),
          ("tailgating_detection_alert_reaction_time", .num 0),
          ("tailgating_detection_safe_reaction_time", .num 0),
          ("vanishing_point_calibration_enabled", .bool false),
          ("vanishing_point_calibration_force", .bool false),
          ("security_event_preview_count", .num 0),
          ("security_event_preview_duration", .num 0),
          ("security_event_video_duration", .num 0)])),
   ("obd", .obj
     [("canbus_enabled", .bool false),
      ("low_battery_cutoff_millivolts", .num 0)]),
   ("wifi_hotspot", .obj
     [("hotspot_enabled", .bool false),
      ("auto_disable_on_engine_off", .bool false),
      ("ssid", .null),
      ("password", .null)]),
   ("driver_id", .obj
     [("barcode_driver_id_enabled", .bool false),
      ("barcode_driver_id_request_period", .str "PER_TRIP"),
      ("barcode_driver_id_audio_delay", .num 0)]),
   ("system", .obj
     [("gesture_enabled", .bool false),
      ("video_recording_after_parked_duration", .num 0),
      ("vehicle_speed_adjustment_percent", .num 0)]),
   ("eld", .obj
     [("eld_enabled", .bool false),
      ("eld_visual_ud_alert_enabled", .bool false),
      ("eld_visual_ud_alert_period", .num 0)])]

-- ### Concrete example inputs used by the counterexamples and witnesses

/-- A settings document whose audio section carries a key no field
descriptor covers. -/
def docUnknownAudioKey : JValue :=
  .obj [("audio", .obj [("audio_notifications_enabled", .bool true),
                        ("mystery_key", .num 42)])]

/-- A settings document whose wifi section exists but lacks the `ssid`
key. -/
def docNoSsid : JValue :=
  .obj [("wifi_hotspot", .obj [("hotspot_enabled", .bool true)])]

/-- A settings document holding only an audio section. -/
def docOnlyAudio : JValue :=
  .obj [("audio", .obj [("audio_notifications_enabled", .bool true)])]

/-- A settings document whose camera section carries a video profile
outside the fixed option list. -/
def docBadProfile : JValue :=
  .obj [("camera", .obj [("video_recording_profile", .str "ultra")])]

/-- A 2xx listing outcome holding an empty device list. -/
def emptyListingOutcome : HttpOutcome :=
  .response 200 "" (some (.obj [("results", .arr [])]))

/-- An NHTSA oracle whose every lookup times out. -/
def failingNhtsa : String → HttpOutcome := fun _ => .netError "timeout"

/-- The decode response of the spec's VIN example:
Make=Ford, Model=F-150, Model Year=2011. -/
def fordDecodeOutcome : HttpOutcome :=
  .response 200 "" (some (.obj [("Results", .arr
    [.obj [("Variable", .str "Make"), ("Value", .str "Ford")],
     .obj [("Variable", .str "Model"), ("Value", .str "F-150")],
     .obj [("Variable", .str "Model Year"), ("Value", .str "2011")]])]))

/-- An oracle answering the Ford decode for the spec's VIN. -/
def fordNhtsa : String → HttpOutcome := fun url =>
  if url = nhtsaUrl (.str "1FTFW1ET7BFC12345") then fordDecodeOutcome
  else .netError "unexpected URL"

/-- The device of the spec's VIN-decode example. -/
def fordDevice : JValue :=
  .obj [("uuid", .str "u1"), ("enclosure_serial_no", .str "S7"),
        ("vin", .str "1FTFW1ET7BFC12345")]

/-- The device of the spec's serial-fallback example: empty VIN, serial
SN42. -/
def sn42Device : JValue :=
  .obj [("uuid", .str "u2"), ("enclosure_serial_no", .str "SN42"),
        ("vin", .str "")]

/-- A listing outcome carrying the two example devices. -/
def exampleListingOutcome : HttpOutcome :=
  .response 200 "" (some (.obj [("results", .arr [fordDevice, sn42Device])]))

/-- A session holding device A's settings, with two listed devices. -/
def sessionOnDeviceA : Session :=
  { access_token := .str "tok"
  , devices := .arr [.obj [("name", .str "Car A"), ("uuid", .str "uuid-A")],
                     .obj [("name", .str "Car B"), ("uuid", .str "uuid-B")]]
  , selected_uuid := .str "uuid-A"
  , current_settings := .obj [("audio", .obj [])]
  , status_message := .str "" }

/-- The settings document whose events section carries a speeding threshold
type outside the fixed option list. -/
def docBadSpeedType : JValue :=
  .obj [("events", .obj [("speeding_event_threshold_type", .str "PROPORTIONAL")])]

/-- The session after switching the selection from device A to device B:
same token and listing, new uuid, settings cleared. -/
def sessionOnDeviceB : Session :=
  { sessionOnDeviceA with selected_uuid := .str "uuid-B", current_settings := .null }

/-- An update outcome the app reports as success. -/
def updSuccessOutcome : HttpOutcome := .response 200 "" none

/-- A refresh outcome carrying a (normalized) server document. -/
def refreshOutcomeA : HttpOutcome :=
  .response 200 "" (some (.obj [("audio",
    .obj [("audio_notifications_enabled", .bool true)])]))

-- ### Helper lemmas

theorem ebind_ok {α β : Type} {x : Except PyErr α} {f : α → Except PyErr β} {b : β}
    (h : ebind x f = .ok b) : ∃ a, x = .ok a ∧ f a = .ok b := by
  cases x with
  | ok a => exact ⟨a, rfl, h⟩
  | error e => simp [ebind] at h

theorem buildAudio_keys {ed : Edits} {s : JValue} {o : JObj}
    (h : buildAudio ed s = .ok o) : o.map Prod.fst = audioKeys := by
  unfold buildAudio at h
  iterate 4 obtain ⟨_, -, h⟩ := ebind_ok h
  injection h with h
  subst h
  rfl

theorem buildCamera_keys {ed : Edits} {s : JValue} {o : JObj}
    (h : buildCamera ed s = .ok o) : o.map Prod.fst = cameraKeys := by
  unfold buildCamera at h
  iterate 8 obtain ⟨_, -, h⟩ := ebind_ok h
  injection h with h
  subst h
  rfl

theorem dms_row_keys {ed : Edits} {base : String} {d : JValue} {o : JObj}
    (h : dms_row ed base d = .ok o) : o.map Prod.fst = dmsKeys base := by
  unfold dms_row at h
  iterate 4 obtain ⟨_, -, h⟩ := ebind_ok h
  injection h with h
  subst h
  rfl

theorem buildEvents_keys {ed : Edits} {s : JValue} {o : JObj}
    (h : buildEvents ed s = .ok o) : o.map Prod.fst = eventsKeys := by
  unfold buildEvents at h
  iterate 21 obtain ⟨_, -, h⟩ := ebind_ok h
  obtain ⟨d1, hd1, h⟩ := ebind_ok h
  obtain ⟨d2, hd2, h⟩ := ebind_ok h
  obtain ⟨d3, hd3, h⟩ := ebind_ok h
  obtain ⟨d4, hd4, h⟩ := ebind_ok h
  obtain ⟨d5, hd5, h⟩ := ebind_ok h
  obtain ⟨d6, hd6, h⟩ := ebind_ok h
  obtain ⟨d7, hd7, h⟩ := ebind_ok h
  iterate 13 obtain ⟨_, -, h⟩ := ebind_ok h
  injection h with h
  subst h
  simp only [List.map_append, dms_row_keys hd1, dms_row_keys hd2, dms_row_keys hd3,
    dms_row_keys hd4, dms_row_keys hd5, dms_row_keys hd6, dms_row_keys hd7]
  rfl

theorem buildObd_keys {ed : Edits} {s : JValue} {o : JObj}
    (h : buildObd ed s = .ok o) : o.map Prod.fst = obdKeys := by
  unfold buildObd at h
  iterate 3 obtain ⟨_, -, h⟩ := ebind_ok h
  injection h with h
  subst h
  rfl

theorem buildWifi_keys {ed : Edits} {s : JValue} {o : JObj}
    (h : buildWifi ed s = .ok o) : o.map Prod.fst = wifiKeys := by
  unfold buildWifi at h
  iterate 5 obtain ⟨_, -, h⟩ := ebind_ok h
  injection h with h
  subst h
  rfl

theorem buildDriverId_keys {ed : Edits} {s : JValue} {o : JObj}
    (h : buildDriverId ed s = .ok o) : o.map Prod.fst = driverIdKeys := by
  unfold buildDriverId at h
  iterate 4 obtain ⟨_, -, h⟩ := ebind_ok h
  injection h with h
  subst h
  rfl

theorem buildSystem_keys {ed : Edits} {s : JValue} {o : JObj}
    (h : buildSystem ed s = .ok o) : o.map Prod.fst = systemKeys := by
  unfold buildSystem at h
  iterate 4 obtain ⟨_, -, h⟩ := ebind_ok h
  injection h with h
  subst h
  rfl

theorem buildEld_keys {ed : Edits} {s : JValue} {o : JObj}
    (h : buildEld ed s = .ok o) : o.map Prod.fst = eldKeys := by
  unfold buildEld at h
  iterate 4 obtain ⟨_, -, h⟩ := ebind_ok h
  injection h with h
  subst h
  rfl

/-- A successful payload assembly decomposes into the eight successful
section builds, in order. -/
theorem buildPayload_ok {ed : Edits} {s : JValue} {o : JObj}
    (h : buildPayload ed s = .ok o) :
    ∃ a c e ob w d sy el,
      buildAudio ed s = .ok a ∧ buildCamera ed s = .ok c ∧
      buildEvents ed s = .ok e ∧ buildObd ed s = .ok ob ∧
      buildWifi ed s = .ok w ∧ buildDriverId ed s = .ok d ∧
      buildSystem ed s = .ok sy ∧ buildEld ed s = .ok el ∧
      o = [("audio", .obj a), ("camera", .obj c), ("events", .obj e),
           ("obd", .obj ob), ("wifi_hotspot", .obj w), ("driver_id", .obj d),
           ("system", .obj sy), ("eld", .obj el)] := by
  unfold buildPayload at h
  obtain ⟨a, ha, h⟩ := ebind_ok h
  obtain ⟨c, hc, h⟩ := ebind_ok h
  obtain ⟨e, he, h⟩ := ebind_ok h
  obtain ⟨ob, hob, h⟩ := ebind_ok h
  obtain ⟨w, hw, h⟩ := ebind_ok h
  obtain ⟨d, hd, h⟩ := ebind_ok h
  obtain ⟨sy, hsy, h⟩ := ebind_ok h
  obtain ⟨el, hel, h⟩ := ebind_ok h
  injection h with h
  exact ⟨a, c, e, ob, w, d, sy, el, ha, hc, he, hob, hw, hd, hsy, hel, h.symm⟩

-- ### Claim theorems

/-- C1, counterexample: the original audio section holds the unknown key
`mystery_key`, the assembled audio section's keys are exactly the three
managed audio keys, and the unknown key is not among them — so an unknown
key inside a known section does NOT appear in the assembled payload. -/
theorem c1_unknown_key_dropped_cex :
    pyGetD docUnknownAudioKey "audio" (.obj [])
      = .ok (.obj [("audio_notifications_enabled", .bool true),
                   ("mystery_key", .num 42)]) ∧
    okSecKeys (buildPayload noEdits docUnknownAudioKey) "audio" = some audioKeys ∧
    okField (buildPayload noEdits docUnknownAudioKey) "audio" "mystery_key" = none ∧
    "mystery_key" ∉ audioKeys :=
  ⟨rfl, rfl, rfl, by decide⟩

/-- C1, amended: payload assembly emits, for every document and every edit
assignment, sections whose key lists are exactly the fixed managed key
lists — unknown keys of the original document never pass through. -/
theorem c1_section_keys_exact (ed : Edits) (s : JValue) (o : JObj)
    (h : buildPayload ed s = .ok o) :
    ∃ a c e ob w d sy el,
      o = [("audio", .obj a), ("camera", .obj c), ("events", .obj e),
           ("obd", .obj ob), ("wifi_hotspot", .obj w), ("driver_id", .obj d),
           ("system", .obj sy), ("eld", .obj el)] ∧
      a.map Prod.fst = audioKeys ∧ c.map Prod.fst = cameraKeys ∧
      e.map Prod.fst = eventsKeys ∧ ob.map Prod.fst = obdKeys ∧
      w.map Prod.fst = wifiKeys ∧ d.map Prod.fst = driverIdKeys ∧
      sy.map Prod.fst = systemKeys ∧ el.map Prod.fst = eldKeys := by
  obtain ⟨a, c, e, ob, w, d, sy, el, ha, hc, he, hob, hw, hd, hsy, hel, ho⟩ :=
    buildPayload_ok h
  exact ⟨a, c, e, ob, w, d, sy, el, ho,
    buildAudio_keys ha, buildCamera_keys hc, buildEvents_keys he,
    buildObd_keys hob, buildWifi_keys hw, buildDriverId_keys hd,
    buildSystem_keys hsy, buildEld_keys hel⟩

/-- Witness for C1's amended theorem at the empty document. -/
theorem c1_section_keys_exact_witness :
    ∃ a c e ob w d sy el,
      defaultPayload
        = [("audio", .obj a), ("camera", .obj c), ("events", .obj e),
           ("obd", .obj ob), ("wifi_hotspot", .obj w), ("driver_id", .obj d),
           ("system", .obj sy), ("eld", .obj el)] ∧
      a.map Prod.fst = audioKeys ∧ c.map Prod.fst = cameraKeys ∧
      e.map Prod.fst = eventsKeys ∧ ob.map Prod.fst = obdKeys ∧
      w.map Prod.fst = wifiKeys ∧ d.map Prod.fst = driverIdKeys ∧
      sy.map Prod.fst = systemKeys ∧ el.map Prod.fst = eldKeys :=
  c1_section_keys_exact noEdits (.obj []) defaultPayload rfl

/-- C2, counterexample: with the wifi section present but `ssid` absent,
the derived ssid value is `null` (Python `None`), not the empty string the
claim requires for string fields. -/
theorem c2_string_default_null_cex :
    okField (buildPayload noEdits docNoSsid) "wifi_hotspot" "ssid" = some JValue.null ∧
    some JValue.null ≠ some (JValue.str "") :=
  ⟨rfl, by simp⟩

/-- C2, amended: with no user interaction, an absent managed key derives
`false` for boolean fields, `0` for numeric (and float-converted) fields,
and the first option for each of the three enum field kinds — but the two
string fields derive `null` (Python `None`), not the empty string; the
empty document assembles to exactly `defaultPayload`. -/
theorem c2_absent_key_defaults :
    buildPayload noEdits (.obj []) = .ok defaultPayload ∧
    ∀ ad id k, jLookup ad k = none →
      cbGet noEdits id (.obj ad) k = .ok false ∧
      numGet noEdits id (.obj ad) k (.num 0) = .ok (.num 0) ∧
      numGetF noEdits id (.obj ad) k (.num 0) = .ok (.num 0) ∧
      txtGet noEdits id (.obj ad) k = .ok .null ∧
      selGet noEdits id vid_profile_options (.obj ad) k "standard" = .ok "standard" ∧
      selGet noEdits id ["CONSTANT", "PERCENT"] (.obj ad) k "CONSTANT" = .ok "CONSTANT" ∧
      selGet noEdits id ["PER_TRIP", "ALWAYS"] (.obj ad) k "PER_TRIP" = .ok "PER_TRIP" := by
  refine ⟨rfl, fun ad id k h => ?_⟩
  have hd : ∀ dflt, pyGetD (.obj ad) k dflt = .ok dflt := by
    intro dflt
    simp [pyGetD, h]
  refine ⟨?_, ?_, ?_, ?_, ?_, ?_, ?_⟩ <;>
    first
    | (show ebind (pyGetD (.obj ad) k .null) _ = _
       rw [hd]
       rfl)
    | (show ebind (pyGetD (.obj ad) k (.num 0)) _ = _
       rw [hd]
       rfl)
    | (show ebind (pyGetD (.obj ad) k (.str _)) _ = _
       rw [hd]
       rfl)

/-- Witness for C2's amended theorem at a concrete absent key. -/
theorem c2_absent_key_defaults_witness :
    cbGet noEdits "w" (.obj []) "missing" = .ok false ∧
    numGet noEdits "w" (.obj []) "missing" (.num 0) = .ok (.num 0) ∧
    numGetF noEdits "w" (.obj []) "missing" (.num 0) = .ok (.num 0) ∧
    txtGet noEdits "w" (.obj []) "missing" = .ok .null ∧
    selGet noEdits "w" vid_profile_options (.obj []) "missing" "standard" = .ok "standard" ∧
    selGet noEdits "w" ["CONSTANT", "PERCENT"] (.obj []) "missing" "CONSTANT" = .ok "CONSTANT" ∧
    selGet noEdits "w" ["PER_TRIP", "ALWAYS"] (.obj []) "missing" "PER_TRIP" = .ok "PER_TRIP" :=
  c2_absent_key_defaults.2 [] "w" "missing" rfl

/-- C5, counterexample: a document holding only an audio section — with no
user edit anywhere — still assembles to a payload containing all eight
managed sections; the events section (absent from the document, untouched
by the user) is not omitted. -/
theorem c5_untouched_sections_not_omitted_cex :
    pyGet docOnlyAudio "events" = .ok .null ∧
    okSections (buildPayload noEdits docOnlyAudio) = some managedSections ∧
    "events" ∈ managedSections :=
  ⟨rfl, rfl, by decide⟩

/-- C5, amended: every successful assembly, for every document and edit
assignment, emits exactly the eight managed sections — nothing outside the
managed set ever appears, and no managed section is ever omitted. -/
theorem c5_sections_exactly_managed (ed : Edits) (s : JValue) (o : JObj)
    (h : buildPayload ed s = .ok o) : o.map Prod.fst = managedSections := by
  obtain ⟨a, c, e, ob, w, d, sy, el, -, -, -, -, -, -, -, -, ho⟩ :=
    buildPayload_ok h
  subst ho
  rfl

/-- Witness for C5's amended theorem at the empty document. -/
theorem c5_sections_exactly_managed_witness :
    defaultPayload.map Prod.fst = managedSections :=
  c5_sections_exactly_managed noEdits (.obj []) defaultPayload rfl

/-- C10: building the settings form is not total over documents with
out-of-set enum values — a camera video profile outside the fixed option
list, or a speeding threshold type outside its list, raises an uncaught
ValueError from the list index lookup instead of substituting a default. -/
theorem c10_enum_out_of_set_raises :
    buildPayload noEdits docBadProfile = .error PyErr.valueError ∧
    buildPayload noEdits docBadSpeedType = .error PyErr.valueError :=
  ⟨rfl, rfl⟩

/-- C3, counterexample: a 200 response whose JSON object body lacks the
`token` field makes `request_token` return `(None, None)` — no token and
no error — falsifying "a 2xx body missing the token field yields an error
result". -/
theorem c3_missing_token_no_error_cex :
    raiseForStatusB 200 = false ∧
    jLookup ([] : JObj) "token" = none ∧
    request_token (.response 200 "" (some (.obj []))) = (JValue.null, JValue.null) :=
  ⟨rfl, rfl, rfl⟩

/-- C3, amended: `request_token` returns an error exactly when the request
raised, the status is 400-599, the body is unparsable, or the body is not
a JSON object; on every other outcome it returns the body's `token` field
with no error — so a non-error status whose object body lacks `token` (or
maps it to null) yields neither a token nor an error. -/
theorem c3_request_token_shape (o : HttpOutcome) :
    ((request_token o).2 = JValue.null ↔ tokenTryOk o = true) ∧
    (request_token o).1 = (if tokenTryOk o then tokenFieldVal o else .null) := by
  cases o with
  | netError m => simp [request_token, tokenTryOk, tokenFieldVal]
  | response s t b =>
    rcases b with - | j
    · simp only [request_token, tokenTryOk, tokenFieldVal]
      constructor
      · constructor
        · intro h
          split at h <;> simp_all
        · intro h
          simp at h
      · split <;> simp
    · cases j <;>
        simp only [request_token, tokenTryOk, tokenFieldVal, Bool.not_eq_true'] <;>
        constructor <;>
        (split <;> simp_all)

/-- C4, counterexample: on a successful listing with zero devices,
`list_devices` returns the empty device list together with a (non-null)
status string — both components non-null, falsifying the uniform
"exactly one of success value and error" contract. -/
theorem c4_listing_both_nonnull_cex :
    list_devices emptyListingOutcome failingNhtsa = (.arr [], .str "") ∧
    ¬ exactlyOne (.arr [], .str "") := by
  constructor
  · rfl
  · simp [exactlyOne]

/-- C4, amended: every operation is a total function of its transport
outcome (no exception escapes); `update_settings`, `send_message` and
`clear_message` return exactly one non-null component; `request_token` and
`get_settings` return at most one non-null component but can return both
null (token field absent, resp. JSON `null` body); and `list_devices`
always returns a non-null second component — a status string on success —
so on success both of its components are non-null. -/
theorem c4_api_pair_shape (o : HttpOutcome) (msg : String) (dur : Int)
    (nh : String → HttpOutcome) :
    exactlyOne (update_settings o) ∧ exactlyOne (send_message o msg dur) ∧
    exactlyOne (clear_message o) ∧ atMostOne (request_token o) ∧
    atMostOne (get_settings o) ∧ (list_devices o nh).2 ≠ JValue.null := by
  refine ⟨?_, ?_, ?_, ?_, ?_, ?_⟩ <;>
    cases o <;>
    simp [update_settings, send_message, clear_message, request_token,
      get_settings, list_devices, exactlyOne, atMostOne] <;>
    (repeat' split) <;> simp_all

/-- C6: resolving the selectbox choice to a uuid that differs from the
stored one stores the new uuid and clears the held settings document (the
app then reruns, so a re-fetch is forced before any further settings
action). -/
theorem c6_select_new_device_clears_settings (st : Session) (name uuid : JValue)
    (dmap : List (JValue × JValue))
    (h1 : deviceMapBuild st.devices = .ok dmap)
    (h2 : deviceMapGet dmap name = .ok uuid)
    (h3 : jvEq st.selected_uuid uuid = false) :
    selectDeviceStep st name
      = .ok { st with selected_uuid := uuid, current_settings := .null } := by
  simp [selectDeviceStep, ebind, h1, h2, h3]

/-- Witness for C6: switching from device A to device B clears the held
settings document. -/
theorem c6_select_new_device_clears_settings_witness :
    selectDeviceStep sessionOnDeviceA (.str "Car B") = .ok sessionOnDeviceB :=
  c6_select_new_device_clears_settings sessionOnDeviceA (.str "Car B") (.str "uuid-B")
    [(.str "Car A", .str "uuid-A"), (.str "Car B", .str "uuid-B")] rfl rfl rfl

/-- C7: after an update the app reports as success, the held settings
document is exactly the first component of the follow-up `get_settings`
call — the server's response — and whenever that response differs from
the submitted payload, the held document differs from the payload too. -/
theorem c7_update_refreshes_from_server (st : Session) (upd refresh : HttpOutcome)
    (payload : JObj) (h : truthy (update_settings upd).1 = true) :
    (saveSettingsFlow st upd refresh).current_settings = (get_settings refresh).1 ∧
    ((get_settings refresh).1 ≠ .obj payload →
      (saveSettingsFlow st upd refresh).current_settings ≠ .obj payload) := by
  have hs : saveSettingsFlow st upd refresh
      = { st with current_settings := (get_settings refresh).1 } := by
    simp [saveSettingsFlow, h]
  rw [hs]
  exact ⟨rfl, fun hne => hne⟩

/-- Witness for C7 at a concrete successful update and refresh. -/
theorem c7_update_refreshes_from_server_witness :
    (saveSettingsFlow sessionOnDeviceA updSuccessOutcome refreshOutcomeA).current_settings
      = (get_settings refreshOutcomeA).1 ∧
    ((get_settings refreshOutcomeA).1 ≠ .obj defaultPayload →
      (saveSettingsFlow sessionOnDeviceA updSuccessOutcome refreshOutcomeA).current_settings
        ≠ .obj defaultPayload) :=
  c7_update_refreshes_from_server sessionOnDeviceA updSuccessOutcome refreshOutcomeA
    defaultPayload rfl

/-- C8: for the spec's decode example (Make=Ford, Model=F-150,
Model Year=2011) `list_devices` derives the display name
"2011 Ford F-150"; an empty VIN with serial SN42 derives
"Vehicle SN: SN42"; and in general, when make, model and year all remain
"N/A", the name falls back to "Vehicle SN: " followed by the serial. -/
theorem c8_display_name_construction :
    list_devices exampleListingOutcome fordNhtsa
      = (.arr [.obj [("name", .str "2011 Ford F-150"), ("uuid", .str "u1")],
               .obj [("name", .str "Vehicle SN: SN42"), ("uuid", .str "u2")]],
         .str "Found: 2011 Ford F-150 (UUID: u1)\nFound: Vehicle SN: SN42 (UUID: u2)") ∧
    ∀ sn : String,
      mkVehicleName (.str "N/A") (.str "N/A") (.str "N/A") (.str sn)
        = "Vehicle SN: " ++ sn :=
  ⟨rfl, fun _ => rfl⟩

/-- C9: (1) a successful device loop returns one entry per listed device;
(2) a device whose VIN lookup call fails still yields its entry — with the
serial-number fallback name — together with the recorded warning followed
by the Found line, and the loop goes on (the per-device result depends
only on that device and its own lookup). -/
theorem c9_lookup_failure_isolated :
    (∀ (nh : String → HttpOutcome) (devs : List JValue) opts msgs,
      processDevices nh devs = .ok (opts, msgs) → opts.length = devs.length) ∧
    (∀ (nh : String → HttpOutcome) (d : JValue) (m : String) (uuid sn vin : JValue),
      pyGetD d "uuid" (.str "N/A") = .ok uuid →
      pyGetD d "enclosure_serial_no" (.str "N/A") = .ok sn →
      pyGetD d "vin" (.str "") = .ok vin →
      truthy vin = true →
      nh (nhtsaUrl vin) = .netError m →
      processDevice nh d
        = .ok (.obj [("name", .str ("Vehicle SN: " ++ pyStr sn)), ("uuid", uuid)],
            ["⚠️ Could not look up VIN " ++ pyStr vin ++ ": " ++ m,
             "Found: Vehicle SN: " ++ pyStr sn ++ " (UUID: " ++ pyStr uuid ++ ")"])) := by
  constructor
  · intro nh devs
    induction devs with
    | nil =>
      intro opts msgs h
      simp [processDevices] at h
      rw [← h.1]
    | cons d rest ih =>
      intro opts msgs h
      unfold processDevices at h
      obtain ⟨em, hem, h⟩ := ebind_ok h
      obtain ⟨ems, hems, h⟩ := ebind_ok h
      injection h with h
      have ho := congrArg Prod.fst h
      simp at ho
      rw [← ho]
      simp [List.length_cons, ih ems.1 ems.2 hems]
  · intro nh d m uuid sn vin h1 h2 h3 h4 h5
    unfold processDevice
    rw [h1]
    simp only [ebind]
    rw [h2]
    simp only [ebind]
    rw [h3]
    simp only [ebind]
    rw [h4]
    simp only [if_true]
    unfold vinLookup
    rw [h5]
    rfl

/-- Witness for C9: one concrete device whose every lookup times out still
produces a one-entry listing with the fallback name and the warning. -/
theorem c9_lookup_failure_isolated_witness :
    (.obj [("name", .str "Vehicle SN: S7"), ("uuid", .str "u1")] :: ([] : List JValue)).length
      = [fordDevice].length ∧
    processDevice failingNhtsa fordDevice
      = .ok (.obj [("name", .str ("Vehicle SN: " ++ pyStr (.str "S7"))),
                   ("uuid", .str "u1")],
          ["⚠️ Could not look up VIN " ++ pyStr (.str "1FTFW1ET7BFC12345") ++ ": " ++ "timeout",
           "Found: Vehicle SN: " ++ pyStr (.str "S7") ++ " (UUID: " ++ pyStr (.str "u1") ++ ")"]) :=
  ⟨c9_lookup_failure_isolated.1 failingNhtsa [fordDevice]
      [.obj [("name", .str "Vehicle SN: S7"), ("uuid", .str "u1")]]
      ["⚠️ Could not look up VIN 1FTFW1ET7BFC12345: timeout",
       "Found: Vehicle SN: S7 (UUID: u1)"] rfl,
   c9_lookup_failure_isolated.2 failingNhtsa fordDevice "timeout"
      (.str "u1") (.str "S7") (.str "1FTFW1ET7BFC12345") rfl rfl rfl rfl rfl⟩

end RavenApp
